import Mathlib

/-!
Shallow embedding of the supervisor engine of `spawner2`
(`src/spawner/spawner.rs`, `src/spawner/error.rs`, `src/libspawner/pipe.rs`).

Effectful collaborator calls (process exit status, group counter sampling,
limit checking, OS limit installation, pipe creation) are driven by explicit
environment records carrying the value each call returns; the monitor's own
control flow is translated statement by statement from the Rust source.
Machine integers are modelled as `Nat`/`Int` (no arithmetic in the embedded
code can overflow); `Duration` values are `Nat` ticks; the `f64` idle-load
threshold, never computed with here, is modelled as `Rat`.
-/

namespace Spawner2

/-- `TerminationReason` from spawner.rs. -/
inductive TerminationReason
  | WallClockTimeLimitExceeded
  | IdleTimeLimitExceeded
  | UserTimeLimitExceeded
  | WriteLimitExceeded
  | MemoryLimitExceeded
  | ProcessLimitExceeded
  | ActiveProcessLimitExceeded
  | ActiveNetworkConnectionLimitExceeded
  | TerminatedByRunner
deriving DecidableEq

/-- `RunnerMessage` from spawner.rs. -/
inductive RunnerMessage
  | Terminate
  | Suspend
  | Resume
  | StopTimeAccounting
  | ResumeTimeAccounting
  | ResetTime
deriving DecidableEq

/-- `ExitStatus` of a process: finished with a code, or crashed. -/
inductive ExitStatus
  | Finished (code : Int)
  | Crashed (description : String)
deriving DecidableEq

/-- `GroupPidCounters`: process counts sampled from a group. -/
structure GroupPidCounters where
  total_processes : Nat
  active_processes : Nat
deriving DecidableEq

/-- Opaque memory snapshot from the Group collaborator; the monitor never inspects it. -/
structure GroupMemory where
  raw : Nat
deriving DecidableEq

/-- Opaque I/O snapshot from the Group collaborator; the monitor never inspects it. -/
structure GroupIo where
  raw : Nat
deriving DecidableEq

/-- Opaque timer snapshot from the Group collaborator; the monitor never inspects it. -/
structure GroupTimers where
  raw : Nat
deriving DecidableEq

/-- Opaque network snapshot from the Group collaborator; the monitor never inspects it. -/
structure GroupNetwork where
  raw : Nat
deriving DecidableEq

/-- `ErrorKind` from error.rs: system, engine-level, or I/O error. -/
inductive ErrorKind
  | Sys (msg : String)
  | Other (msg : String)
  | Io (msg : String)
deriving DecidableEq

/-- `Error` from error.rs. -/
structure Error where
  kind : ErrorKind
deriving DecidableEq

/-- `impl From<&'static str> for Error` composed with `From<String>`: wraps the string as `Other`. -/
def Error.fromStr (s : String) : Error :=
  ⟨ErrorKind.Other s⟩

/-- `impl fmt::Display for Error`: each kind displays its payload. -/
def Error.display : Error → String
  | ⟨ErrorKind.Sys s⟩ => s
  | ⟨ErrorKind.Other s⟩ => s
  | ⟨ErrorKind.Io s⟩ => s

/-- `IdleTimeLimit` from spawner.rs (`cpu_load_threshold` is `f64`, modelled as `Rat`). -/
structure IdleTimeLimit where
  total_idle_time : Nat
  cpu_load_threshold : Rat
deriving DecidableEq

/-- `ResourceLimits` from spawner.rs: each cap independently present or absent. -/
structure ResourceLimits where
  idle_time : Option IdleTimeLimit
  wall_clock_time : Option Nat
  total_user_time : Option Nat
  max_memory_usage : Option Nat
  total_bytes_written : Option Nat
  total_processes_created : Option Nat
  active_processes : Option Nat
  active_network_connections : Option Nat
deriving DecidableEq

/-- `Report` from spawner.rs. -/
structure Report where
  wall_clock_time : Nat
  memory : Option GroupMemory
  io : Option GroupIo
  timers : Option GroupTimers
  pid_counters : Option GroupPidCounters
  network : Option GroupNetwork
  exit_status : ExitStatus
  termination_reason : Option TerminationReason
deriving DecidableEq

/-- Observable actions performed by the monitor, in program order. -/
inductive Event
  | reportCheck
  | limitCheck (res : Option TerminationReason)
  | groupTerminate
  | procSuspend
  | procResume
  | checkerResetTime
  | checkerStopAccounting
  | checkerResumeAccounting
  | msgReceived (m : RunnerMessage)
  | sleep (interval : Nat)
  | onTerminateCallback
deriving DecidableEq

/-- The mutable state of `ProcessMonitor` that the embedded control flow reads
or writes: the recorded reason, the immutable configuration flags, the pending
message queue, and whether an `on_terminate` callback is still installed. -/
structure MonitorState where
  term_reason : Option TerminationReason
  wait_for_children : Bool
  monitor_interval : Nat
  msg_queue : List RunnerMessage
  on_terminate : Option Unit
deriving DecidableEq

/-- Environment for processing one control message: what `process.exit_status()`
and the invoked control operation (`terminate`/`suspend`/`resume`) return. -/
structure MsgEnv where
  exit_status : Except Error (Option ExitStatus)
  op_result : Except Error Unit

/-- A message environment in which every call succeeds and the process still runs. -/
def MsgEnv.ok : MsgEnv :=
  ⟨Except.ok none, Except.ok ()⟩

/-- Environment for one monitor loop iteration: the value returned by each
effectful collaborator call the iteration may make. -/
structure TickEnv where
  exit_status : Except Error (Option ExitStatus)
  pid_counters : Except Error (Option GroupPidCounters)
  final_check : Except Error (Option TerminationReason)
  memory : Except Error (Option GroupMemory)
  io : Except Error (Option GroupIo)
  timers : Except Error (Option GroupTimers)
  network : Except Error (Option GroupNetwork)
  elapsed : Nat
  loop_check : Except Error (Option TerminationReason)
  terminate_result : Except Error Unit
  msg_envs : List MsgEnv

/-- A tick environment in which every call succeeds benignly. -/
def TickEnv.ok : TickEnv :=
  { exit_status := Except.ok none
    pid_counters := Except.ok none
    final_check := Except.ok none
    memory := Except.ok none
    io := Except.ok none
    timers := Except.ok none
    network := Except.ok none
    elapsed := 0
    loop_check := Except.ok none
    terminate_result := Except.ok ()
    msg_envs := [] }

/-- The guard of the early return in `ProcessMonitor::get_report`:
`self.wait_for_children && pid_counters.is_some() && pid_counters.unwrap().active_processes != 0`. -/
def waitsForChildren (st : MonitorState) (pc : Option GroupPidCounters) : Bool :=
  st.wait_for_children &&
    (match pc with
     | some c => c.active_processes != 0
     | none => false)

/-- `ProcessMonitor::get_report`: returns `none` while the report is not ready,
otherwise assembles it; updates `term_reason` via the final guarded check. -/
def get_report (st : MonitorState) (env : TickEnv) :
    Except Error (MonitorState × Option Report) :=
  match env.exit_status with
  | Except.error e => Except.error e
  | Except.ok none => Except.ok (st, none)
  | Except.ok (some exit_status) =>
    match env.pid_counters with
    | Except.error e => Except.error e
    | Except.ok pid_counters =>
      if waitsForChildren st pid_counters then
        Except.ok (st, none)
      else
        match
          (if st.term_reason.isNone then
             match env.final_check with
             | Except.error e => Except.error e
             | Except.ok tr => Except.ok { st with term_reason := tr }
           else
             Except.ok st) with
        | Except.error e => Except.error e
        | Except.ok st1 =>
          match env.memory with
          | Except.error e => Except.error e
          | Except.ok memory =>
            match env.io with
            | Except.error e => Except.error e
            | Except.ok io =>
              match env.timers with
              | Except.error e => Except.error e
              | Except.ok timers =>
                match env.network with
                | Except.error e => Except.error e
                | Except.ok network =>
                  Except.ok (st1, some {
                    wall_clock_time := env.elapsed
                    memory := memory
                    io := io
                    timers := timers
                    pid_counters := pid_counters
                    network := network
                    exit_status := exit_status
                    termination_reason := st1.term_reason })

/-- One arm of the `match msg` in `ProcessMonitor::handle_messages`, applied to
one already-received message; returns the new state and the actions performed. -/
def processMsg (st : MonitorState) (m : RunnerMessage) (env : MsgEnv) :
    Except Error (MonitorState × List Event) :=
  match m with
  | RunnerMessage.Terminate =>
      match env.op_result with
      | Except.error e => Except.error e
      | Except.ok _ =>
          Except.ok ({ st with term_reason := some TerminationReason.TerminatedByRunner },
            [Event.msgReceived m, Event.groupTerminate])
  | RunnerMessage.Suspend =>
      match env.exit_status with
      | Except.error e => Except.error e
      | Except.ok none =>
          match env.op_result with
          | Except.error e => Except.error e
          | Except.ok _ => Except.ok (st, [Event.msgReceived m, Event.procSuspend])
      | Except.ok (some _) => Except.ok (st, [Event.msgReceived m])
  | RunnerMessage.Resume =>
      match env.exit_status with
      | Except.error e => Except.error e
      | Except.ok none =>
          match env.op_result with
          | Except.error e => Except.error e
          | Except.ok _ => Except.ok (st, [Event.msgReceived m, Event.procResume])
      | Except.ok (some _) => Except.ok (st, [Event.msgReceived m])
  | RunnerMessage.ResetTime =>
      Except.ok (st, [Event.msgReceived m, Event.checkerResetTime])
  | RunnerMessage.StopTimeAccounting =>
      Except.ok (st, [Event.msgReceived m, Event.checkerStopAccounting])
  | RunnerMessage.ResumeTimeAccounting =>
      Except.ok (st, [Event.msgReceived m, Event.checkerResumeAccounting])

/-- The `for msg in self.msg_receiver.try_iter().take(10)` loop: pulls at most
`n` messages off the queue, stopping early when the queue is empty, and
processes each in arrival order. -/
def drainMessages : Nat → MonitorState → List MsgEnv →
    Except Error (MonitorState × List Event)
  | 0, st, _ => pure (st, [])
  | n + 1, st, envs =>
    match st.msg_queue with
    | [] => pure (st, [])
    | m :: rest => do
      let (st1, evs1) ← processMsg { st with msg_queue := rest } m (envs.headD MsgEnv.ok)
      let (st2, evs2) ← drainMessages n st1 envs.tail
      pure (st2, evs1 ++ evs2)

/-- `ProcessMonitor::handle_messages`: drain up to 10 pending control messages. -/
def handle_messages (st : MonitorState) (envs : List MsgEnv) :
    Except Error (MonitorState × List Event) :=
  drainMessages 10 st envs

/-- Step 2 of the `start_monitoring` loop body:
`if let Some(tr) = self.limit_checker.check(&mut self.group)? { self.group.terminate()?; self.term_reason = Some(tr); }`. -/
def limitStep (st : MonitorState) (env : TickEnv) :
    Except Error (MonitorState × List Event) :=
  match env.loop_check with
  | Except.error e => Except.error e
  | Except.ok (some tr) =>
      match env.terminate_result with
      | Except.error e => Except.error e
      | Except.ok _ =>
          Except.ok ({ st with term_reason := some tr },
            [Event.limitCheck (some tr), Event.groupTerminate])
  | Except.ok none =>
      Except.ok (st, [Event.limitCheck none])

/-- One iteration of the `loop` in `ProcessMonitor::start_monitoring`:
report-readiness check, then limit check, then message drain, then sleep;
returns the trace, the report if one was returned, and the new state. -/
def monitorTick (st : MonitorState) (env : TickEnv) :
    Except Error (List Event × Option Report × MonitorState) :=
  match get_report st env with
  | Except.error e => Except.error e
  | Except.ok (st1, some r) => Except.ok ([Event.reportCheck], some r, st1)
  | Except.ok (st1, none) =>
      match limitStep st1 env with
      | Except.error e => Except.error e
      | Except.ok (st2, evs2) =>
          match handle_messages st2 env.msg_envs with
          | Except.error e => Except.error e
          | Except.ok (st3, evs3) =>
              Except.ok
                (Event.reportCheck ::
                   (evs2 ++ evs3 ++ [Event.sleep st3.monitor_interval]),
                 none, st3)

/-- `ProcessMonitor::start_monitoring`, run for at most `fuel` iterations over
the environment trace; `Except.ok (none, _)` means the fuel ran out with the
monitor still looping. -/
def start_monitoring : Nat → MonitorState → List TickEnv →
    Except Error (Option Report × List Event)
  | 0, _, _ => Except.ok (none, [])
  | fuel + 1, st, envs =>
    match monitorTick st (envs.headD TickEnv.ok) with
    | Except.error e => Except.error e
    | Except.ok (evs, some r, _) => Except.ok (some r, evs)
    | Except.ok (evs, none, st1) =>
        match start_monitoring fuel st1 envs.tail with
        | Except.error e => Except.error e
        | Except.ok (res, evs2) => Except.ok (res, evs ++ evs2)

/-- `impl Drop for ProcessMonitor`: always `group.terminate()` (result ignored),
then take and run the `on_terminate` callback if one is still installed. -/
def dropMonitor (st : MonitorState) : MonitorState × List Event :=
  ({ st with on_terminate := none },
   Event.groupTerminate ::
     (match st.on_terminate with
      | some _ => [Event.onTerminateCallback]
      | none => []))

/-- `OsLimit` from the process module: the two in-kernel enforceable caps. -/
inductive OsLimit
  | Memory
  | ActiveProcess
deriving DecidableEq

/-- `EnabledOsLimits`: which caps the OS accepted, as recorded by `ProcessMonitor::new`. -/
structure EnabledOsLimits where
  memory : Bool
  active_process : Bool
deriving DecidableEq

/-- A call to `group.set_os_limit(limit, value)`. -/
inductive OsCall
  | setOsLimit (l : OsLimit) (value : Nat)
deriving DecidableEq

/-- Environment for `ProcessMonitor::new`: what each potential `set_os_limit` call returns. -/
structure OsEnv where
  memory_result : Except Error Bool
  active_result : Except Error Bool

/-- The `EnabledOsLimits` construction in `ProcessMonitor::new`: for each of the
two caps, `limits.cap.map(|l| group.set_os_limit(k, l)).transpose()?.unwrap_or(false)`;
also records the `set_os_limit` calls made. -/
def installOsLimits (limits : ResourceLimits) (env : OsEnv) :
    Except Error (EnabledOsLimits × List OsCall) := do
  let (memFlag, memCalls) ←
    match limits.max_memory_usage with
    | some l => do
        let b ← env.memory_result
        pure (b, [OsCall.setOsLimit OsLimit.Memory l])
    | none => pure (false, ([] : List OsCall))
  let (apFlag, apCalls) ←
    match limits.active_processes with
    | some l => do
        let b ← env.active_result
        pure (b, [OsCall.setOsLimit OsLimit.ActiveProcess l])
    | none => pure (false, ([] : List OsCall))
  pure ({ memory := memFlag, active_process := apFlag }, memCalls ++ apCalls)

/-- What a pipe endpoint is bound to. -/
inductive PipeKind
  | nullDevice
  | pipeEnd
  | openedFile
deriving DecidableEq

/-- `ReadPipe` from pipe.rs, abstracted to its binding. -/
structure ReadPipe where
  kind : PipeKind
deriving DecidableEq

/-- `WritePipe` from pipe.rs, abstracted to its binding. -/
structure WritePipe where
  kind : PipeKind
deriving DecidableEq

/-- Modelled from the spec: the sys-level endpoint constructor wrapped by
`ReadPipe::null` in pipe.rs is not under src; per spec §4.1 `null()` yields an
endpoint bound to the OS null device, and may fail with an OS error, which the
environment supplies. -/
def ReadPipe.null (res : Except Error Unit) : Except Error ReadPipe :=
  res.map (fun _ => ⟨PipeKind.nullDevice⟩)

/-- Modelled from the spec: the sys-level endpoint constructor wrapped by
`WritePipe::null` in pipe.rs is not under src; per spec §4.1 `null()` yields an
endpoint bound to the OS null device, and may fail with an OS error, which the
environment supplies. -/
def WritePipe.null (res : Except Error Unit) : Except Error WritePipe :=
  res.map (fun _ => ⟨PipeKind.nullDevice⟩)

/-- `Stdio`: the triple handed to the spawned child. -/
structure Stdio where
  stdin : ReadPipe
  stdout : WritePipe
  stderr : WritePipe
deriving DecidableEq

/-- Environment for the three null-endpoint constructions in `ProcessMonitor::new`. -/
structure StdioEnv where
  stdin_null : Except Error Unit
  stdout_null : Except Error Unit
  stderr_null : Except Error Unit

/-- The `match program.stdio` expression in `ProcessMonitor::new`: the provided
triple, or a freshly built all-null triple. -/
def resolveStdio (provided : Option Stdio) (env : StdioEnv) : Except Error Stdio :=
  match provided with
  | some s => Except.ok s
  | none => do
      let si ← ReadPipe.null env.stdin_null
      let so ← WritePipe.null env.stdout_null
      let se ← WritePipe.null env.stderr_null
      pure { stdin := si, stdout := so, stderr := se }

/-- `Spawner::wait`: join every worker in submission order; `none` stands for a
panicked worker (`join()` returned `Err`), which `unwrap_or` replaces with
`Err(Error::from("Runner thread panicked"))`. -/
def Spawner.wait (joins : List (Option (Except Error Report))) :
    List (Except Error Report) :=
  joins.map (fun j =>
    match j with
    | some r => r
    | none => Except.error (Error.fromStr "Runner thread panicked"))

/-- Evaluation of `get_report` once the root process has exited and every
sampling call succeeds. -/
lemma get_report_eval
    (st : MonitorState) (env : TickEnv) (status : ExitStatus)
    (pc : Option GroupPidCounters) (mem : Option GroupMemory) (ioc : Option GroupIo)
    (tim : Option GroupTimers) (net : Option GroupNetwork) (tr : Option TerminationReason)
    (hs : env.exit_status = Except.ok (some status))
    (hpc : env.pid_counters = Except.ok pc)
    (hm : env.memory = Except.ok mem) (hi : env.io = Except.ok ioc)
    (ht : env.timers = Except.ok tim) (hn : env.network = Except.ok net)
    (hc : env.final_check = Except.ok tr) :
    get_report st env =
      if waitsForChildren st pc = true then
        Except.ok (st, none)
      else
        Except.ok
          ({ st with term_reason := if st.term_reason.isNone then tr else st.term_reason },
           some { wall_clock_time := env.elapsed
                  memory := mem
                  io := ioc
                  timers := tim
                  pid_counters := pc
                  network := net
                  exit_status := status
                  termination_reason :=
                    if st.term_reason.isNone then tr else st.term_reason }) := by
  obtain ⟨tr0, wfc, mi, q, ot⟩ := st
  cases hwc : waitsForChildren
      { term_reason := tr0, wait_for_children := wfc, monitor_interval := mi,
        msg_queue := q, on_terminate := ot } pc with
  | true =>
    simp [get_report, Bind.bind, Except.bind, Pure.pure, Except.pure, hs, hpc, hwc]
  | false =>
    cases tr0 with
    | none =>
      simp [get_report, Bind.bind, Except.bind, Pure.pure, Except.pure,
        hs, hpc, hm, hi, ht, hn, hc, hwc]
    | some r =>
      simp [get_report, Bind.bind, Except.bind, Pure.pure, Except.pure,
        hs, hpc, hm, hi, ht, hn, hc, hwc]

/-- C2: after the root process has exited, `get_report` either keeps looping
(when `wait_for_children` is set and sampled `pid_counters` report live
descendants) or assembles the Report from the last snapshots, the elapsed wall
clock and one final guarded limit check. -/
theorem get_report_after_root_exit
    (st : MonitorState) (env : TickEnv) (status : ExitStatus)
    (pc : Option GroupPidCounters) (mem : Option GroupMemory) (ioc : Option GroupIo)
    (tim : Option GroupTimers) (net : Option GroupNetwork) (tr : Option TerminationReason)
    (hs : env.exit_status = Except.ok (some status))
    (hpc : env.pid_counters = Except.ok pc)
    (hm : env.memory = Except.ok mem) (hi : env.io = Except.ok ioc)
    (ht : env.timers = Except.ok tim) (hn : env.network = Except.ok net)
    (hc : env.final_check = Except.ok tr) :
    (waitsForChildren st pc = true → get_report st env = Except.ok (st, none)) ∧
    (waitsForChildren st pc = false →
      get_report st env = Except.ok
        ({ st with term_reason := if st.term_reason.isNone then tr else st.term_reason },
         some { wall_clock_time := env.elapsed
                memory := mem
                io := ioc
                timers := tim
                pid_counters := pc
                network := net
                exit_status := status
                termination_reason :=
                  if st.term_reason.isNone then tr else st.term_reason })) := by
  have hev := get_report_eval st env status pc mem ioc tim net tr hs hpc hm hi ht hn hc
  constructor
  · intro hwc
    rw [hev, if_pos hwc]
  · intro hwc
    rw [hev, if_neg (by simp [hwc])]

/-- A monitor state with no reason recorded, not waiting for children, a 1-tick
interval, an empty queue and no callback; witnesses specialize it. -/
def stBase : MonitorState :=
  { term_reason := none
    wait_for_children := false
    monitor_interval := 1
    msg_queue := []
    on_terminate := none }

theorem get_report_after_root_exit_witness :
    waitsForChildren { stBase with wait_for_children := true }
        (some { total_processes := 1, active_processes := 0 }) = false ∧
    get_report { stBase with wait_for_children := true }
        { TickEnv.ok with
            exit_status := Except.ok (some (ExitStatus.Finished 0))
            pid_counters := Except.ok (some { total_processes := 1, active_processes := 0 })
            elapsed := 7 } =
      Except.ok
        ({ stBase with wait_for_children := true },
         some { wall_clock_time := 7
                memory := none
                io := none
                timers := none
                pid_counters := some { total_processes := 1, active_processes := 0 }
                network := none
                exit_status := ExitStatus.Finished 0
                termination_reason := none }) := by
  refine ⟨by decide, ?_⟩
  have h := (get_report_after_root_exit
      { stBase with wait_for_children := true }
      { TickEnv.ok with
          exit_status := Except.ok (some (ExitStatus.Finished 0))
          pid_counters := Except.ok (some { total_processes := 1, active_processes := 0 })
          elapsed := 7 }
      (ExitStatus.Finished 0)
      (some { total_processes := 1, active_processes := 0 })
      none none none none none rfl rfl rfl rfl rfl rfl rfl).2 (by decide)
  exact h

/-- C10: when the platform yields no `pid_counters`, `wait_for_children` has no
effect: `get_report` produces the Report as soon as the root has exited,
exactly as it would with the flag cleared. -/
theorem no_pid_counters_no_wait
    (st : MonitorState) (env : TickEnv) (status : ExitStatus)
    (mem : Option GroupMemory) (ioc : Option GroupIo)
    (tim : Option GroupTimers) (net : Option GroupNetwork) (tr : Option TerminationReason)
    (hs : env.exit_status = Except.ok (some status))
    (hpc : env.pid_counters = Except.ok none)
    (hm : env.memory = Except.ok mem) (hi : env.io = Except.ok ioc)
    (ht : env.timers = Except.ok tim) (hn : env.network = Except.ok net)
    (hc : env.final_check = Except.ok tr) :
    (∃ st1 rep, get_report st env = Except.ok (st1, some rep)) ∧
    (get_report st env).map Prod.snd =
      (get_report { st with wait_for_children := false } env).map Prod.snd := by
  have h1 := get_report_eval st env status none mem ioc tim net tr hs hpc hm hi ht hn hc
  have h2 := get_report_eval { st with wait_for_children := false } env status none
      mem ioc tim net tr hs hpc hm hi ht hn hc
  have hw1 : waitsForChildren st none = false := by simp [waitsForChildren]
  have hw2 : waitsForChildren { st with wait_for_children := false } none = false := by
    simp [waitsForChildren]
  rw [hw1] at h1
  rw [hw2] at h2
  simp only [Bool.false_eq_true, if_false] at h1 h2
  refine ⟨⟨_, _, h1⟩, ?_⟩
  rw [h1, h2]
  simp [Except.map]

theorem no_pid_counters_no_wait_witness :
    ∃ st1 rep,
      get_report { stBase with wait_for_children := true }
          { TickEnv.ok with
              exit_status := Except.ok (some (ExitStatus.Finished 0))
              pid_counters := Except.ok none } =
        Except.ok (st1, some rep) :=
  (no_pid_counters_no_wait { stBase with wait_for_children := true }
      { TickEnv.ok with
          exit_status := Except.ok (some (ExitStatus.Finished 0))
          pid_counters := Except.ok none }
      (ExitStatus.Finished 0) none none none none none
      rfl rfl rfl rfl rfl rfl rfl).1

/-- C3: `Spawner::wait` yields one result per worker, in submission order; a
panicked worker becomes `Err` of the `Other` kind displaying
"Runner thread panicked". -/
theorem spawner_wait_order_and_panic (joins : List (Option (Except Error Report))) :
    (Spawner.wait joins).length = joins.length ∧
    (∀ i : Nat, (Spawner.wait joins)[i]? =
      (joins[i]?).map (fun j =>
        match j with
        | some r => r
        | none => Except.error (Error.fromStr "Runner thread panicked"))) ∧
    (Error.fromStr "Runner thread panicked").kind =
      ErrorKind.Other "Runner thread panicked" ∧
    Error.display (Error.fromStr "Runner thread panicked") = "Runner thread panicked" := by
  refine ⟨by simp [Spawner.wait], fun i => ?_, rfl, rfl⟩
  simp [Spawner.wait, List.getElem?_map]

/-- C6: `ProcessMonitor::new` calls `set_os_limit` exactly for the caps present
in the limits, and each `EnabledOsLimits` flag is the boolean that call
returned, `false` when the cap is absent. -/
theorem install_os_limits_spec
    (limits : ResourceLimits) (env : OsEnv) (bm ba : Bool)
    (h1 : env.memory_result = Except.ok bm)
    (h2 : env.active_result = Except.ok ba) :
    installOsLimits limits env =
      Except.ok
        ({ memory :=
             (match limits.max_memory_usage with
              | some _ => bm
              | none => false)
           active_process :=
             (match limits.active_processes with
              | some _ => ba
              | none => false) },
         (match limits.max_memory_usage with
          | some l => [OsCall.setOsLimit OsLimit.Memory l]
          | none => []) ++
         (match limits.active_processes with
          | some l => [OsCall.setOsLimit OsLimit.ActiveProcess l]
          | none => [])) := by
  cases hmm : limits.max_memory_usage <;> cases hap : limits.active_processes <;>
    simp [installOsLimits, Bind.bind, Except.bind, Pure.pure, Except.pure, h1, h2, hmm, hap]

/-- A limit set with only the memory cap present, used to exercise `installOsLimits`. -/
def limitsMemOnly : ResourceLimits :=
  { idle_time := none
    wall_clock_time := none
    total_user_time := none
    max_memory_usage := some 1024
    total_bytes_written := none
    total_processes_created := none
    active_processes := none
    active_network_connections := none }

theorem install_os_limits_spec_witness :
    installOsLimits limitsMemOnly ⟨Except.ok true, Except.ok false⟩ =
      Except.ok
        ({ memory := true, active_process := false },
         [OsCall.setOsLimit OsLimit.Memory 1024]) :=
  install_os_limits_spec limitsMemOnly ⟨Except.ok true, Except.ok false⟩ true false rfl rfl

/-- C9: when no stdio triple was configured, the child is spawned with all
three endpoints bound to the OS null device; otherwise exactly the provided
triple is used. -/
theorem resolve_stdio_spec
    (env : StdioEnv)
    (h1 : env.stdin_null = Except.ok ())
    (h2 : env.stdout_null = Except.ok ())
    (h3 : env.stderr_null = Except.ok ()) :
    resolveStdio none env =
      Except.ok
        { stdin := { kind := PipeKind.nullDevice }
          stdout := { kind := PipeKind.nullDevice }
          stderr := { kind := PipeKind.nullDevice } } ∧
    ∀ s : Stdio, resolveStdio (some s) env = Except.ok s := by
  refine ⟨?_, fun s => rfl⟩
  simp [resolveStdio, ReadPipe.null, WritePipe.null, Bind.bind, Except.bind,
    Pure.pure, Except.pure, Except.map, h1, h2, h3]

theorem resolve_stdio_spec_witness :
    resolveStdio none ⟨Except.ok (), Except.ok (), Except.ok ()⟩ =
      Except.ok
        { stdin := { kind := PipeKind.nullDevice }
          stdout := { kind := PipeKind.nullDevice }
          stderr := { kind := PipeKind.nullDevice } } :=
  (resolve_stdio_spec ⟨Except.ok (), Except.ok (), Except.ok ()⟩ rfl rfl rfl).1

/-- Events a message-drain step may perform. -/
def msgPhaseEvent : Event → Bool
  | Event.msgReceived _ => true
  | Event.groupTerminate => true
  | Event.procSuspend => true
  | Event.procResume => true
  | Event.checkerResetTime => true
  | Event.checkerStopAccounting => true
  | Event.checkerResumeAccounting => true
  | _ => false

/-- Events the limit-decision step may perform. -/
def limitPhaseEvent : Event → Bool
  | Event.limitCheck _ => true
  | Event.groupTerminate => true
  | _ => false

/-- The messages a trace records as received, in order. -/
def receivedMsgs (evs : List Event) : List RunnerMessage :=
  evs.filterMap (fun e =>
    match e with
    | Event.msgReceived m => some m
    | _ => none)

lemma processMsg_ok_shape
    (st : MonitorState) (m : RunnerMessage) (env : MsgEnv)
    (st1 : MonitorState) (evs : List Event)
    (h : processMsg st m env = Except.ok (st1, evs)) :
    evs.all msgPhaseEvent = true ∧
    receivedMsgs evs = [m] ∧
    st1.msg_queue = st.msg_queue ∧
    st1.wait_for_children = st.wait_for_children ∧
    st1.monitor_interval = st.monitor_interval ∧
    st1.on_terminate = st.on_terminate := by
  obtain ⟨es, op⟩ := env
  cases m <;>
    rcases es with e1 | v <;>
    rcases op with e2 | u <;>
    (try rcases v with _ | s) <;>
    simp only [processMsg] at h <;>
    (try cases h) <;>
    simp_all [receivedMsgs, msgPhaseEvent]

lemma drainMessages_ok_shape :
    ∀ (n : Nat) (st : MonitorState) (envs : List MsgEnv)
      (st1 : MonitorState) (evs : List Event),
      drainMessages n st envs = Except.ok (st1, evs) →
      evs.all msgPhaseEvent = true ∧
      receivedMsgs evs = st.msg_queue.take n ∧
      st1.msg_queue = st.msg_queue.drop n ∧
      st1.wait_for_children = st.wait_for_children ∧
      st1.monitor_interval = st.monitor_interval ∧
      st1.on_terminate = st.on_terminate := by
  intro n
  induction n with
  | zero =>
    intro st envs st1 evs h
    simp only [drainMessages, Pure.pure, Except.pure] at h
    cases h
    simp [receivedMsgs]
  | succ n ih =>
    intro st envs st1 evs h
    cases hq : st.msg_queue with
    | nil =>
      simp only [drainMessages, hq, Pure.pure, Except.pure] at h
      cases h
      simp [receivedMsgs, hq]
    | cons m rest =>
      simp only [drainMessages, hq, Bind.bind, Except.bind, Pure.pure, Except.pure] at h
      cases hp : processMsg { st with msg_queue := rest } m (envs.headD MsgEnv.ok) with
      | error e => rw [hp] at h; cases h
      | ok p =>
        obtain ⟨stA, evs1⟩ := p
        rw [hp] at h
        dsimp only at h
        cases hd : drainMessages n stA envs.tail with
        | error e => rw [hd] at h; cases h
        | ok q =>
          obtain ⟨stB, evs2⟩ := q
          rw [hd] at h
          dsimp only at h
          cases h
          have hshape := processMsg_ok_shape _ _ _ _ _ hp
          have hdrain := ih _ _ _ _ hd
          have hqA : stA.msg_queue = rest := hshape.2.2.1
          refine ⟨?_, ?_, ?_, ?_, ?_, ?_⟩
          · simp [List.all_append, hshape.1, hdrain.1]
          · simp [receivedMsgs] at hshape hdrain ⊢
            simp [hshape.2.1, hdrain.2.1, hqA]
          · simp [hdrain.2.2.1, hqA]
          · simp [hdrain.2.2.2.1, hshape.2.2.2.1]
          · simp [hdrain.2.2.2.2.1, hshape.2.2.2.2.1]
          · simp [hdrain.2.2.2.2.2, hshape.2.2.2.2.2]

/-- C4: `handle_messages` drains at most 10 queued messages per tick in FIFO
order (excess stays queued), does nothing when the queue is empty, and each
message has its prescribed effect: Terminate terminates the group and records
`TerminatedByRunner`; Suspend/Resume act only while the process still runs;
the three time-accounting messages are forwarded to the limit checker. -/
theorem handle_messages_spec
    (st st1 : MonitorState) (envs : List MsgEnv) (evs : List Event)
    (h : handle_messages st envs = Except.ok (st1, evs)) :
    receivedMsgs evs = st.msg_queue.take 10 ∧
    st1.msg_queue = st.msg_queue.drop 10 ∧
    (st.msg_queue = [] → st1 = st ∧ evs = []) ∧
    (∀ (s : MonitorState) (e : MsgEnv),
      processMsg s RunnerMessage.Terminate e =
        (match e.op_result with
         | Except.error err => Except.error err
         | Except.ok _ =>
             Except.ok ({ s with term_reason := some TerminationReason.TerminatedByRunner },
               [Event.msgReceived RunnerMessage.Terminate, Event.groupTerminate]))) ∧
    (∀ (s : MonitorState) (e : MsgEnv), e.exit_status = Except.ok none →
      processMsg s RunnerMessage.Suspend e =
        (match e.op_result with
         | Except.error err => Except.error err
         | Except.ok _ =>
             Except.ok (s, [Event.msgReceived RunnerMessage.Suspend, Event.procSuspend]))) ∧
    (∀ (s : MonitorState) (e : MsgEnv) (x : ExitStatus),
      e.exit_status = Except.ok (some x) →
      processMsg s RunnerMessage.Suspend e =
        Except.ok (s, [Event.msgReceived RunnerMessage.Suspend])) ∧
    (∀ (s : MonitorState) (e : MsgEnv), e.exit_status = Except.ok none →
      processMsg s RunnerMessage.Resume e =
        (match e.op_result with
         | Except.error err => Except.error err
         | Except.ok _ =>
             Except.ok (s, [Event.msgReceived RunnerMessage.Resume, Event.procResume]))) ∧
    (∀ (s : MonitorState) (e : MsgEnv) (x : ExitStatus),
      e.exit_status = Except.ok (some x) →
      processMsg s RunnerMessage.Resume e =
        Except.ok (s, [Event.msgReceived RunnerMessage.Resume])) ∧
    (∀ (s : MonitorState) (e : MsgEnv),
      processMsg s RunnerMessage.ResetTime e =
        Except.ok (s, [Event.msgReceived RunnerMessage.ResetTime, Event.checkerResetTime])) ∧
    (∀ (s : MonitorState) (e : MsgEnv),
      processMsg s RunnerMessage.StopTimeAccounting e =
        Except.ok (s, [Event.msgReceived RunnerMessage.StopTimeAccounting,
          Event.checkerStopAccounting])) ∧
    (∀ (s : MonitorState) (e : MsgEnv),
      processMsg s RunnerMessage.ResumeTimeAccounting e =
        Except.ok (s, [Event.msgReceived RunnerMessage.ResumeTimeAccounting,
          Event.checkerResumeAccounting])) := by
  have hdrain := drainMessages_ok_shape 10 st envs st1 evs h
  refine ⟨hdrain.2.1, hdrain.2.2.1, ?_, ?_, ?_, ?_, ?_, ?_, ?_, ?_, ?_⟩
  · intro hq
    simp only [handle_messages, drainMessages, hq, Pure.pure, Except.pure] at h
    cases h
    exact ⟨rfl, rfl⟩
  · intro s e
    simp [processMsg]
  · intro s e he
    simp [processMsg, he]
  · intro s e x he
    simp [processMsg, he]
  · intro s e he
    simp [processMsg, he]
  · intro s e x he
    simp [processMsg, he]
  · intro s e
    simp [processMsg]
  · intro s e
    simp [processMsg]
  · intro s e
    simp [processMsg]

/-- An 11-message queue, one more than the per-tick drain cap. -/
def elevenSuspends : List RunnerMessage :=
  List.replicate 11 RunnerMessage.Suspend

theorem handle_messages_spec_witness :
    ∃ st1 evs,
      handle_messages { stBase with msg_queue := elevenSuspends } [] =
        Except.ok (st1, evs) ∧
      receivedMsgs evs = elevenSuspends.take 10 ∧
      st1.msg_queue = elevenSuspends.drop 10 := by
  have h : handle_messages { stBase with msg_queue := elevenSuspends } [] =
      Except.ok ({ stBase with msg_queue := [RunnerMessage.Suspend] },
        (List.replicate 10 [Event.msgReceived RunnerMessage.Suspend,
          Event.procSuspend]).flatten) := by
    rfl
  have hs := handle_messages_spec _ _ _ _ h
  exact ⟨_, _, h, hs.1, hs.2.1⟩

lemma limitStep_ok_shape
    (st : MonitorState) (env : TickEnv) (st2 : MonitorState) (levs : List Event)
    (h : limitStep st env = Except.ok (st2, levs)) :
    levs.all limitPhaseEvent = true ∧
    st2.wait_for_children = st.wait_for_children ∧
    st2.monitor_interval = st.monitor_interval ∧
    st2.msg_queue = st.msg_queue ∧
    st2.on_terminate = st.on_terminate ∧
    (∀ tr, env.loop_check = Except.ok (some tr) →
      levs = [Event.limitCheck (some tr), Event.groupTerminate] ∧
      st2.term_reason = some tr) ∧
    (env.loop_check = Except.ok none →
      levs = [Event.limitCheck none] ∧ st2 = st) := by
  cases hc : env.loop_check with
  | error e => simp [limitStep, hc] at h
  | ok o =>
    cases o with
    | none =>
      simp only [limitStep, hc] at h
      cases h
      simp [limitPhaseEvent, hc]
    | some tr =>
      cases ht : env.terminate_result with
      | error e => simp [limitStep, hc, ht] at h
      | ok u =>
        simp only [limitStep, hc, ht] at h
        cases h
        simp [limitPhaseEvent, hc]

/-- C5: an error from any collaborator call inside a monitor iteration aborts
the loop at once: `start_monitoring` returns that very error (no Report), and
the Drop handler still performs `group.terminate()`. -/
theorem monitor_error_aborts
    (st : MonitorState) (env : TickEnv) (rest : List TickEnv) (fuel : Nat) (e : Error)
    (h : monitorTick st env = Except.error e) :
    start_monitoring (fuel + 1) st (env :: rest) = Except.error e ∧
    (∀ rep evs, start_monitoring (fuel + 1) st (env :: rest) ≠
      Except.ok (some rep, evs)) ∧
    (∀ s : MonitorState, Event.groupTerminate ∈ (dropMonitor s).2) := by
  have hrun : start_monitoring (fuel + 1) st (env :: rest) = Except.error e := by
    simp only [start_monitoring, List.headD_cons]
    rw [h]
  refine ⟨hrun, ?_, ?_⟩
  · intro rep evs hcontra
    rw [hrun] at hcontra
    cases hcontra
  · intro s
    cases hsome : s.on_terminate <;> simp [dropMonitor, hsome]

theorem monitor_error_aborts_witness :
    monitorTick stBase
        { TickEnv.ok with exit_status := Except.error { kind := ErrorKind.Sys "boom" } } =
      Except.error { kind := ErrorKind.Sys "boom" } ∧
    start_monitoring 1 stBase
        [{ TickEnv.ok with exit_status := Except.error { kind := ErrorKind.Sys "boom" } }] =
      Except.error { kind := ErrorKind.Sys "boom" } :=
  ⟨rfl,
   (monitor_error_aborts stBase
      { TickEnv.ok with exit_status := Except.error { kind := ErrorKind.Sys "boom" } }
      [] 0 { kind := ErrorKind.Sys "boom" } rfl).1⟩

/-- C8: dropping the monitor always performs one `group.terminate()`; the
`on_terminate` callback runs on the drop exactly when still installed, the
installed flag is consumed, and a repeated drop can never run it again;
no monitor loop iteration ever runs the callback. -/
theorem drop_monitor_spec (st : MonitorState) :
    (dropMonitor st).2.count Event.groupTerminate = 1 ∧
    (dropMonitor st).2.count Event.onTerminateCallback =
      (if st.on_terminate.isSome then 1 else 0) ∧
    (dropMonitor st).1.on_terminate = none ∧
    (dropMonitor (dropMonitor st).1).2.count Event.onTerminateCallback = 0 ∧
    (∀ (env : TickEnv) (evs : List Event) (rep : Option Report) (st2 : MonitorState),
      monitorTick st env = Except.ok (evs, rep, st2) →
      Event.onTerminateCallback ∉ evs) := by
  refine ⟨?_, ?_, ?_, ?_, ?_⟩
  · cases hsome : st.on_terminate <;> simp [dropMonitor, hsome]
  · cases hsome : st.on_terminate <;> simp [dropMonitor, hsome]
  · simp [dropMonitor]
  · cases hsome : st.on_terminate <;> simp [dropMonitor, hsome]
  · intro env evs rep st2 h
    cases hg : get_report st env with
    | error e => simp [monitorTick, hg] at h
    | ok p =>
      obtain ⟨st1, ro⟩ := p
      cases ro with
      | some r =>
        simp only [monitorTick, hg] at h
        cases h
        simp
      | none =>
        cases hl : limitStep st1 env with
        | error e => simp [monitorTick, hg, hl] at h
        | ok q =>
          obtain ⟨stA, levs⟩ := q
          cases hm : handle_messages stA env.msg_envs with
          | error e => simp [monitorTick, hg, hl, hm] at h
          | ok w =>
            obtain ⟨stB, mevs⟩ := w
            simp only [monitorTick, hg, hl, hm] at h
            cases h
            have hls := limitStep_ok_shape _ _ _ _ hl
            have hms := drainMessages_ok_shape 10 _ _ _ _ hm
            intro hmem
            simp only [List.mem_cons, List.mem_append] at hmem
            rcases hmem with h1 | (h2 | h3) | (h4 | h5)
            · cases h1
            · have := List.all_eq_true.mp hls.1 _ h2
              simp [limitPhaseEvent] at this
            · have := List.all_eq_true.mp hms.1 _ h3
              simp [msgPhaseEvent] at this
            · cases h4
            · simp at h5

theorem drop_monitor_spec_witness :
    (dropMonitor { stBase with on_terminate := some () }).2.count
        Event.onTerminateCallback = 1 ∧
    (dropMonitor (dropMonitor { stBase with on_terminate := some () }).1).2.count
        Event.onTerminateCallback = 0 :=
  ⟨(drop_monitor_spec { stBase with on_terminate := some () }).2.1,
   (drop_monitor_spec { stBase with on_terminate := some () }).2.2.2.1⟩

/-- A monitor state with one pending control message. -/
def stPending : MonitorState :=
  { stBase with msg_queue := [RunnerMessage.ResetTime] }

/-- A tick environment in which the root process has already exited. -/
def envExited : TickEnv :=
  { TickEnv.ok with exit_status := Except.ok (some (ExitStatus.Finished 0)) }

/-- C7 counterexample: in the iteration that returns the Report, the limit
check, the message drain (despite a pending message) and the sleep are all
skipped — the iteration performs only the report-readiness check, refuting
"no step is skipped". -/
theorem tick_order_counterexample :
    monitorTick stPending envExited =
      Except.ok ([Event.reportCheck],
        some { wall_clock_time := 0
               memory := none
               io := none
               timers := none
               pid_counters := none
               network := none
               exit_status := ExitStatus.Finished 0
               termination_reason := none },
        stPending) ∧
    ([Event.reportCheck] : List Event).count (Event.sleep 1) = 0 ∧
    ([Event.reportCheck] : List Event).count
      (Event.msgReceived RunnerMessage.ResetTime) = 0 ∧
    ([Event.reportCheck] : List Event).count (Event.limitCheck none) = 0 ∧
    stPending.msg_queue.length = 1 := by
  refine ⟨rfl, by decide, by decide, by decide, rfl⟩

/-- C7 amended: in every iteration that does not return the Report and does
not abort on an error, the events happen in the exact order report-readiness
check, then limit check (terminating the group and recording the reason on a
breach), then message drain, then sleep; an iteration that returns the Report
performs only the report-readiness check. -/
theorem tick_order_amended (st : MonitorState) (env : TickEnv) :
    (∀ evs st3, monitorTick st env = Except.ok (evs, none, st3) →
      ∃ st1 st2 levs mevs,
        get_report st env = Except.ok (st1, none) ∧
        limitStep st1 env = Except.ok (st2, levs) ∧
        handle_messages st2 env.msg_envs = Except.ok (st3, mevs) ∧
        evs = Event.reportCheck ::
          (levs ++ mevs ++ [Event.sleep st3.monitor_interval]) ∧
        levs.all limitPhaseEvent = true ∧
        mevs.all msgPhaseEvent = true ∧
        (∀ tr, env.loop_check = Except.ok (some tr) →
          levs = [Event.limitCheck (some tr), Event.groupTerminate] ∧
          st2.term_reason = some tr)) ∧
    (∀ evs r st1, monitorTick st env = Except.ok (evs, some r, st1) →
      evs = [Event.reportCheck] ∧ get_report st env = Except.ok (st1, some r)) := by
  constructor
  · intro evs st3 h
    cases hg : get_report st env with
    | error e => simp [monitorTick, hg] at h
    | ok p =>
      obtain ⟨st1, ro⟩ := p
      cases ro with
      | some r =>
        simp only [monitorTick, hg] at h
        cases h
      | none =>
        cases hl : limitStep st1 env with
        | error e => simp [monitorTick, hg, hl] at h
        | ok q =>
          obtain ⟨st2, levs⟩ := q
          cases hm : handle_messages st2 env.msg_envs with
          | error e => simp [monitorTick, hg, hl, hm] at h
          | ok w =>
            obtain ⟨stB, mevs⟩ := w
            simp only [monitorTick, hg, hl, hm] at h
            cases h
            have hls := limitStep_ok_shape _ _ _ _ hl
            have hms := drainMessages_ok_shape 10 _ _ _ _ hm
            exact ⟨st1, st2, levs, mevs, rfl, hl, hm, rfl, hls.1, hms.1,
              fun tr htr => (hls.2.2.2.2.2.1 tr htr)⟩
  · intro evs r st1 h
    cases hg : get_report st env with
    | error e => simp [monitorTick, hg] at h
    | ok p =>
      obtain ⟨stA, ro⟩ := p
      cases ro with
      | some r2 =>
        simp only [monitorTick, hg] at h
        cases h
        exact ⟨rfl, rfl⟩
      | none =>
        cases hl : limitStep stA env with
        | error e => simp [monitorTick, hg, hl] at h
        | ok q =>
          obtain ⟨st2, levs⟩ := q
          cases hm : handle_messages st2 env.msg_envs with
          | error e => simp [monitorTick, hg, hl, hm] at h
          | ok w =>
            obtain ⟨stB, mevs⟩ := w
            simp only [monitorTick, hg, hl, hm] at h
            cases h

theorem tick_order_amended_witness :
    ∃ st1 st2 levs mevs,
      get_report stPending TickEnv.ok = Except.ok (st1, none) ∧
      limitStep st1 TickEnv.ok = Except.ok (st2, levs) ∧
      handle_messages st2 TickEnv.ok.msg_envs = Except.ok
        ({ stBase with msg_queue := [] }, mevs) ∧
      [Event.reportCheck, Event.limitCheck none,
        Event.msgReceived RunnerMessage.ResetTime, Event.checkerResetTime,
        Event.sleep 1] =
        Event.reportCheck :: (levs ++ mevs ++ [Event.sleep 1]) ∧
      levs.all limitPhaseEvent = true ∧
      mevs.all msgPhaseEvent = true ∧
      (∀ tr, TickEnv.ok.loop_check = Except.ok (some tr) →
        levs = [Event.limitCheck (some tr), Event.groupTerminate] ∧
        st2.term_reason = some tr) :=
  (tick_order_amended stPending TickEnv.ok).1
    [Event.reportCheck, Event.limitCheck none,
      Event.msgReceived RunnerMessage.ResetTime, Event.checkerResetTime,
      Event.sleep 1]
    { stBase with msg_queue := [] } rfl

/-- A monitor state holding one queued Terminate request. -/
def stQueuedTerm : MonitorState :=
  { stBase with msg_queue := [RunnerMessage.Terminate] }

/-- First tick environment: the running group breaches the wall-clock limit. -/
def envBreach : TickEnv :=
  { TickEnv.ok with
      loop_check := Except.ok (some TerminationReason.WallClockTimeLimitExceeded) }

/-- Second tick environment: the root process has died. -/
def envDead : TickEnv :=
  { TickEnv.ok with
      exit_status := Except.ok (some (ExitStatus.Crashed "killed"))
      elapsed := 7 }

/-- The event trace of the two-tick run below. -/
def evsOverwrite : List Event :=
  [Event.reportCheck,
   Event.limitCheck (some TerminationReason.WallClockTimeLimitExceeded),
   Event.groupTerminate,
   Event.msgReceived RunnerMessage.Terminate,
   Event.groupTerminate,
   Event.sleep 1,
   Event.reportCheck]

/-- The Report the two-tick run below returns. -/
def repOverwrite : Report :=
  { wall_clock_time := 7
    memory := none
    io := none
    timers := none
    pid_counters := none
    network := none
    exit_status := ExitStatus.Crashed "killed"
    termination_reason := some TerminationReason.TerminatedByRunner }

/-- C1 counterexample: in one run the wall-clock breach records the first
reason, yet a Terminate message drained later in the same tick overwrites it —
the Report attributes `TerminatedByRunner`, not the first-established
`WallClockTimeLimitExceeded`. -/
theorem first_reason_wins_counterexample :
    start_monitoring 2 stQueuedTerm [envBreach, envDead] =
      Except.ok (some repOverwrite, evsOverwrite) ∧
    evsOverwrite.indexOf
        (Event.limitCheck (some TerminationReason.WallClockTimeLimitExceeded)) <
      evsOverwrite.indexOf (Event.msgReceived RunnerMessage.Terminate) ∧
    repOverwrite.termination_reason = some TerminationReason.TerminatedByRunner ∧
    (repOverwrite.termination_reason ==
      some TerminationReason.WallClockTimeLimitExceeded) = false := by
  refine ⟨rfl, by decide, rfl, by decide⟩

/-- C1 amended: the Report carries at most one reason, namely the monitor's
single `term_reason` cell, but the reason recorded is the last one
established: a loop-iteration breach and a Terminate message each overwrite
any earlier reason unconditionally, and only the final check in `get_report`
is guarded by the reason still being unset. -/
theorem term_reason_last_wins
    (st : MonitorState) (env : TickEnv) (e : MsgEnv) :
    (∀ tr st2 levs, env.loop_check = Except.ok (some tr) →
      limitStep st env = Except.ok (st2, levs) → st2.term_reason = some tr) ∧
    (∀ st2 evs, processMsg st RunnerMessage.Terminate e = Except.ok (st2, evs) →
      st2.term_reason = some TerminationReason.TerminatedByRunner) ∧
    (∀ r st2 rep, st.term_reason = some r →
      get_report st env = Except.ok (st2, some rep) →
      rep.termination_reason = some r ∧ st2.term_reason = some r) ∧
    (∀ tr st2 rep, st.term_reason = none → env.final_check = Except.ok tr →
      get_report st env = Except.ok (st2, some rep) →
      rep.termination_reason = tr ∧ st2.term_reason = tr) := by
  refine ⟨?_, ?_, ?_, ?_⟩
  · intro tr st2 levs hc hl
    cases ht : env.terminate_result with
    | error e2 => simp [limitStep, hc, ht] at hl
    | ok u =>
      simp only [limitStep, hc, ht] at hl
      cases hl
      simp
  · intro st2 evs h
    cases hop : e.op_result with
    | error e2 => simp [processMsg, hop] at h
    | ok u =>
      simp only [processMsg, hop] at h
      cases h
      simp
  · intro r st2 rep hr hg
    cases hes : env.exit_status with
    | error e2 => simp [get_report, hes] at hg
    | ok so =>
      cases so with
      | none => simp [get_report, hes] at hg
      | some status =>
        cases hpc : env.pid_counters with
        | error e2 => simp [get_report, hes, hpc] at hg
        | ok pc =>
          cases hwc : waitsForChildren st pc with
          | true => simp [get_report, hes, hpc, hwc] at hg
          | false =>
            cases hm : env.memory with
            | error e2 => simp [get_report, hes, hpc, hwc, hr, hm] at hg
            | ok mem =>
              cases hio : env.io with
              | error e2 => simp [get_report, hes, hpc, hwc, hr, hm, hio] at hg
              | ok ioc =>
                cases hti : env.timers with
                | error e2 =>
                  simp [get_report, hes, hpc, hwc, hr, hm, hio, hti] at hg
                | ok tim =>
                  cases hne : env.network with
                  | error e2 =>
                    simp [get_report, hes, hpc, hwc, hr, hm, hio, hti, hne] at hg
                  | ok net =>
                    simp only [get_report, hes, hpc, hwc, hr, hm, hio, hti, hne,
                      Option.isNone_some, Bool.false_eq_true, if_false] at hg
                    cases hg
                    exact ⟨by simp [hr], hr⟩
  · intro tr st2 rep hr hc hg
    cases hes : env.exit_status with
    | error e2 => simp [get_report, hes] at hg
    | ok so =>
      cases so with
      | none => simp [get_report, hes] at hg
      | some status =>
        cases hpc : env.pid_counters with
        | error e2 => simp [get_report, hes, hpc] at hg
        | ok pc =>
          cases hwc : waitsForChildren st pc with
          | true => simp [get_report, hes, hpc, hwc] at hg
          | false =>
            cases hm : env.memory with
            | error e2 => simp [get_report, hes, hpc, hwc, hr, hc, hm] at hg
            | ok mem =>
              cases hio : env.io with
              | error e2 => simp [get_report, hes, hpc, hwc, hr, hc, hm, hio] at hg
              | ok ioc =>
                cases hti : env.timers with
                | error e2 =>
                  simp [get_report, hes, hpc, hwc, hr, hc, hm, hio, hti] at hg
                | ok tim =>
                  cases hne : env.network with
                  | error e2 =>
                    simp [get_report, hes, hpc, hwc, hr, hc, hm, hio, hti, hne] at hg
                  | ok net =>
                    simp only [get_report, hes, hpc, hwc, hr, hc, hm, hio, hti, hne,
                      Option.isNone_none, if_true] at hg
                    cases hg
                    exact ⟨rfl, rfl⟩

/-- A state in which a wall-clock breach has already been recorded. -/
def stWC : MonitorState :=
  { stBase with term_reason := some TerminationReason.WallClockTimeLimitExceeded }

theorem term_reason_last_wins_witness :
    ∃ st2 evs,
      processMsg stWC RunnerMessage.Terminate MsgEnv.ok = Except.ok (st2, evs) ∧
      st2.term_reason = some TerminationReason.TerminatedByRunner := by
  refine ⟨_, _, rfl, ?_⟩
  exact (term_reason_last_wins stWC TickEnv.ok MsgEnv.ok).2.1 _ _ rfl

end Spawner2
